import Mathlib

/-!
Verification of the loan amortization and payoff-strategy simulation engine.

The definitions below are a shallow embedding of the repository's
calculation code: the C++ `AmortizationCalculator` (legacy single-loan
calculator, per-type calculators for credit cards, personal loans, auto
loans, mortgages and student loans, and the generic dispatcher), the C++
`LoanController::calculateMultiple` aggregation, and the TypeScript payoff
strategy simulator (`getLoanPriority`, `simulateStrategy`).  Money
arithmetic is embedded over `ℚ`; the `while` loops of the source, which
are all bounded by explicit month caps, are embedded as structural
recursion on a fuel argument equal to the remaining allowed iterations.
-/

namespace LoanSim

/-- `monthlyRate(apr) = apr / 100 / 12` (AmortizationCalculator.h). -/
def monthlyRate (apr : ℚ) : ℚ := apr / 100 / 12

/-- `dailyRate(apr) = apr / 100 / 365` (AmortizationCalculator.h). -/
def dailyRate (apr : ℚ) : ℚ := apr / 100 / 365

/-- `AmortizationCalculator::calculateAmortizationPayment`: the standard
fixed-payment formula, with the zero-rate degenerate case. -/
def calculateAmortizationPayment (principal rate : ℚ) (months : ℕ) : ℚ :=
  if rate = 0 then principal / (months : ℚ)
  else principal * (rate * (1 + rate) ^ months) / ((1 + rate) ^ months - 1)

/-- `MonthlyEvent` of LoanModels.h: one simulated month for one loan. -/
structure MonthlyEvent where
  month : ℕ
  startBalance : ℚ
  interest : ℚ
  payment : ℚ
  endBalance : ℚ
  principalPaid : ℚ
  pmiPayment : ℚ
  escrowPayment : ℚ
  totalPayment : ℚ
deriving Repr, DecidableEq

/-- An all-zero event, used as the out-of-range fallback of `List.getD`. -/
def zeroEvent : MonthlyEvent :=
  { month := 0, startBalance := 0, interest := 0, payment := 0, endBalance := 0,
    principalPaid := 0, pmiPayment := 0, escrowPayment := 0, totalPayment := 0 }

/-- `LoanRequest` of LoanModels.h (legacy single-loan calculator input). -/
structure LoanRequest where
  principal : ℚ
  apr : ℚ
  monthlyPayment : ℚ
deriving Repr, DecidableEq

/-- `LoanResponse` of LoanModels.h (legacy single-loan calculator output). -/
structure LoanResponse where
  principal : ℚ
  apr : ℚ
  monthlyPayment : ℚ
  events : List MonthlyEvent
  totalMonths : ℕ
  totalInterest : ℚ
  totalPaid : ℚ
  totalPMI : ℚ
  totalEscrow : ℚ
deriving Repr, DecidableEq

/-- `AmortizationCalculator::validateInput`: `some errorMessage` when the
request is rejected, `none` when it passes. -/
def validateInput (request : LoanRequest) : Option String :=
  if request.principal ≤ 0 then some "Principal must be positive"
  else if request.apr < 0 ∨ 100 < request.apr then some "APR must be between 0 and 100"
  else if request.monthlyPayment ≤ 0 then some "Monthly payment must be positive"
  else if request.monthlyPayment ≤ request.principal * monthlyRate request.apr then
    some "Monthly payment must exceed monthly interest"
  else none

/-- The `while (balance > 0.01 && month < MAX_MONTHS)` loop of the legacy
`AmortizationCalculator::calculate`: payment is applied first, then interest
accrues on the reduced balance.  `fuel` is the number of months the cap
still allows (initially `MAX_MONTHS = 1200`). -/
def legacyLoop (monthlyPayment rate : ℚ) (balance : ℚ) (month fuel : ℕ) :
    List MonthlyEvent :=
  match fuel with
  | 0 => []
  | f + 1 =>
    if balance > 1 / 100 then
      let payment := min monthlyPayment balance
      let afterPayment := balance - payment
      let interest := afterPayment * rate
      let newBalance := afterPayment + interest
      { month := month + 1, startBalance := balance, interest := interest,
        payment := payment, endBalance := max 0 newBalance,
        principalPaid := payment, pmiPayment := 0, escrowPayment := 0,
        totalPayment := payment } ::
        legacyLoop monthlyPayment rate newBalance (month + 1) f
    else []

/-- Legacy `AmortizationCalculator::calculate`: validate, then simulate with
payment-then-interest ordering under the 1200-month cap.  The C++ code
throws `std::invalid_argument` on bad input; this is embedded as
`Except.error`. -/
def calculate (request : LoanRequest) : Except String LoanResponse :=
  match validateInput request with
  | some error => Except.error error
  | none =>
    let events := legacyLoop request.monthlyPayment (monthlyRate request.apr)
      request.principal 0 1200
    Except.ok
      { principal := request.principal, apr := request.apr,
        monthlyPayment := request.monthlyPayment, events := events,
        totalMonths := events.length,
        totalInterest := (events.map (·.interest)).sum,
        totalPaid := (events.map (·.totalPayment)).sum,
        totalPMI := 0, totalEscrow := 0 }

/-- The events of a legacy calculator outcome (none when it failed). -/
def eventsOf (outcome : Except String LoanResponse) : List MonthlyEvent :=
  match outcome with
  | Except.ok response => response.events
  | Except.error _ => []

/-- `LoanCalculationResult` of LoanModels.h: one loan's full simulated life. -/
structure LoanCalculationResult where
  loanId : String
  loanName : String
  loanType : String
  principal : ℚ
  interestRate : ℚ
  monthlyPayment : ℚ
  events : List MonthlyEvent
  totalMonths : ℕ
  totalInterest : ℚ
  totalPaid : ℚ
  totalPMI : ℚ
  totalEscrow : ℚ
  minimumPayment : ℚ
  vehicleValue : ℚ
  equityPercent : ℚ
deriving Repr, DecidableEq

/-- `CreditCardEntry` of LoanModels.h. -/
structure CreditCardEntry where
  id : String
  name : String
  type : String
  balance : ℚ
  apr : ℚ
  creditLimit : ℚ
  monthlyPayment : ℚ
  minimumPaymentPercent : ℚ
  minimumPaymentFloor : ℚ
deriving Repr, DecidableEq

/-- The credit card memo: `max(balance * minimumPaymentPercent / 100,
minimumPaymentFloor)`, computed once from the starting balance. -/
def creditCardMinimumPayment (entry : CreditCardEntry) : ℚ :=
  max (entry.balance * (entry.minimumPaymentPercent / 100)) entry.minimumPaymentFloor

/-- The running payment `calculateCreditCard` uses: the caller-supplied
payment when positive, else the computed minimum. -/
def creditCardEffectivePayment (entry : CreditCardEntry) : ℚ :=
  if entry.monthlyPayment > 0 then entry.monthlyPayment
  else creditCardMinimumPayment entry

/-- The inner 30-day compounding loop of `calculateCreditCard`:
`(accumulated interest, running daily balance)` after `days` more days. -/
def creditCardDayLoop (dailyRateVal : ℚ) (days : ℕ) (accInterest dailyBalance : ℚ) :
    ℚ × ℚ :=
  match days with
  | 0 => (accInterest, dailyBalance)
  | d + 1 =>
    let dayInterest := dailyBalance * dailyRateVal
    creditCardDayLoop dailyRateVal d (accInterest + dayInterest)
      (dailyBalance + dayInterest)

/-- The monthly loop of `calculateCreditCard`: 30 days of daily compounding,
then payment applied to the compounded balance. -/
def creditCardLoop (payment dailyRateVal : ℚ) (balance : ℚ) (month fuel : ℕ) :
    List MonthlyEvent :=
  match fuel with
  | 0 => []
  | f + 1 =>
    if balance > 1 / 100 then
      let compounded := creditCardDayLoop dailyRateVal 30 0 balance
      let monthlyInterest := compounded.1
      let afterInterest := compounded.2
      let payApplied := min payment afterInterest
      let newBalance := afterInterest - payApplied
      { month := month + 1, startBalance := balance, interest := monthlyInterest,
        payment := payApplied, endBalance := max 0 newBalance,
        principalPaid := payApplied - monthlyInterest, pmiPayment := 0,
        escrowPayment := 0, totalPayment := payApplied } ::
        creditCardLoop payment dailyRateVal newBalance (month + 1) f
    else []

/-- `AmortizationCalculator::calculateCreditCard`. -/
def calculateCreditCard (entry : CreditCardEntry) : LoanCalculationResult :=
  let payment := creditCardEffectivePayment entry
  let events := creditCardLoop payment (dailyRate entry.apr) entry.balance 0 1200
  { loanId := entry.id, loanName := entry.name, loanType := entry.type,
    principal := entry.balance, interestRate := entry.apr,
    monthlyPayment := payment, events := events, totalMonths := events.length,
    totalInterest := (events.map (·.interest)).sum,
    totalPaid := (events.map (·.totalPayment)).sum,
    totalPMI := 0, totalEscrow := 0,
    minimumPayment := creditCardMinimumPayment entry,
    vehicleValue := 0, equityPercent := 0 }

/-- `PersonalLoanEntry` of LoanModels.h. -/
structure PersonalLoanEntry where
  id : String
  name : String
  type : String
  balance : ℚ
  interestRate : ℚ
  termMonths : ℕ
  monthlyPayment : ℚ
  originationFeePercent : ℚ
deriving Repr, DecidableEq

/-- The simple-interest, interest-then-payment loop shared by the personal
loan calculator and the generic fallback of the dispatcher. -/
def simpleInterestLoop (payment rate : ℚ) (balance : ℚ) (month fuel : ℕ) :
    List MonthlyEvent :=
  match fuel with
  | 0 => []
  | f + 1 =>
    if balance > 1 / 100 then
      let interest := balance * rate
      let payApplied := min payment (balance + interest)
      let principalPaid := payApplied - interest
      let newBalance := balance - principalPaid
      { month := month + 1, startBalance := balance, interest := interest,
        payment := payApplied, endBalance := max 0 newBalance,
        principalPaid := principalPaid, pmiPayment := 0, escrowPayment := 0,
        totalPayment := payApplied } ::
        simpleInterestLoop payment rate newBalance (month + 1) f
    else []

/-- `AmortizationCalculator::calculatePersonalLoan`. -/
def calculatePersonalLoan (entry : PersonalLoanEntry) : LoanCalculationResult :=
  let rate := monthlyRate entry.interestRate
  let payment :=
    if entry.monthlyPayment ≤ 0 ∧ entry.termMonths > 0 then
      calculateAmortizationPayment entry.balance rate entry.termMonths
    else entry.monthlyPayment
  let maxMonths := if entry.termMonths > 0 then entry.termMonths else 1200
  let events := simpleInterestLoop payment rate entry.balance 0 maxMonths
  { loanId := entry.id, loanName := entry.name, loanType := entry.type,
    principal := entry.balance, interestRate := entry.interestRate,
    monthlyPayment := payment, events := events, totalMonths := events.length,
    totalInterest := (events.map (·.interest)).sum,
    totalPaid := (events.map (·.totalPayment)).sum,
    totalPMI := 0, totalEscrow := 0, minimumPayment := 0,
    vehicleValue := 0, equityPercent := 0 }

/-- `AutoLoanEntry` of LoanModels.h. -/
structure AutoLoanEntry where
  id : String
  name : String
  type : String
  balance : ℚ
  interestRate : ℚ
  termMonths : ℕ
  vehiclePrice : ℚ
  downPayment : ℚ
  tradeInValue : ℚ
  tradeInPayoff : ℚ
  vehicleYear : ℕ
  isUsed : Bool
deriving Repr, DecidableEq

/-- The auto loan loop: the simple-interest core of `calculateAutoLoan`
with the parallel vehicle depreciation track.  Returns the events and the
terminal vehicle value. -/
def autoLoanLoop (payment rate annualDepreciation firstYearBonus : ℚ)
    (balance vehicleValue : ℚ) (month fuel : ℕ) : List MonthlyEvent × ℚ :=
  match fuel with
  | 0 => ([], vehicleValue)
  | f + 1 =>
    if balance > 1 / 100 then
      let monthlyDepreciation :=
        if month + 1 ≤ 12 then vehicleValue * (annualDepreciation + firstYearBonus) / 12
        else vehicleValue * annualDepreciation / 12
      let newVehicleValue := max 0 (vehicleValue - monthlyDepreciation)
      let interest := balance * rate
      let payApplied := min payment (balance + interest)
      let principalPaid := payApplied - interest
      let newBalance := balance - principalPaid
      let rest := autoLoanLoop payment rate annualDepreciation firstYearBonus
        newBalance newVehicleValue (month + 1) f
      ({ month := month + 1, startBalance := balance, interest := interest,
         payment := payApplied, endBalance := max 0 newBalance,
         principalPaid := principalPaid, pmiPayment := 0, escrowPayment := 0,
         totalPayment := payApplied } :: rest.1, rest.2)
    else ([], vehicleValue)

/-- `AmortizationCalculator::calculateAutoLoan`. -/
def calculateAutoLoan (entry : AutoLoanEntry) : LoanCalculationResult :=
  let rate := monthlyRate entry.interestRate
  let payment := calculateAmortizationPayment entry.balance rate entry.termMonths
  let annualDepreciation : ℚ := if entry.isUsed then 10 / 100 else 15 / 100
  let firstYearBonus : ℚ := if entry.isUsed then 5 / 100 else 10 / 100
  let run := autoLoanLoop payment rate annualDepreciation firstYearBonus
    entry.balance entry.vehiclePrice 0 entry.termMonths
  { loanId := entry.id, loanName := entry.name, loanType := entry.type,
    principal := entry.balance, interestRate := entry.interestRate,
    monthlyPayment := payment, events := run.1, totalMonths := run.1.length,
    totalInterest := (run.1.map (·.interest)).sum,
    totalPaid := (run.1.map (·.totalPayment)).sum,
    totalPMI := 0, totalEscrow := 0, minimumPayment := 0,
    vehicleValue := run.2, equityPercent := 0 }

/-- `MortgageEntry` of LoanModels.h. -/
structure MortgageEntry where
  id : String
  name : String
  type : String
  balance : ℚ
  interestRate : ℚ
  termYears : ℕ
  homePrice : ℚ
  downPayment : ℚ
  downPaymentPercent : ℚ
  propertyTaxAnnual : ℚ
  homeInsuranceAnnual : ℚ
  pmiRate : ℚ
  hoaMonthly : ℚ
  includeEscrow : Bool
deriving Repr, DecidableEq

/-- The PITI loop of `calculateMortgage`: interest-then-payment on the
principal, constant escrow, and the PMI cancellation branches evaluated on
the loan-to-value ratio after this month's principal reduction.  Returns
the events and the final balance (used for `equityPercent`). -/
def mortgageLoop (piPayment escrowPayment monthlyPMI rate homePrice : ℚ)
    (balance : ℚ) (month fuel : ℕ) : List MonthlyEvent × ℚ :=
  match fuel with
  | 0 => ([], balance)
  | f + 1 =>
    if balance > 1 / 100 then
      let interest := balance * rate
      let payApplied := min piPayment (balance + interest)
      let principalPaid := payApplied - interest
      let newBalance := balance - principalPaid
      let currentLTV := newBalance / homePrice
      let pmiPay :=
        if currentLTV ≤ 78 / 100 then 0
        else if currentLTV ≤ 80 / 100 ∧ month + 1 > 24 then 0
        else monthlyPMI
      let rest := mortgageLoop piPayment escrowPayment monthlyPMI rate homePrice
        newBalance (month + 1) f
      ({ month := month + 1, startBalance := balance, interest := interest,
         payment := payApplied, endBalance := max 0 newBalance,
         principalPaid := principalPaid, pmiPayment := pmiPay,
         escrowPayment := escrowPayment,
         totalPayment := payApplied + pmiPay + escrowPayment } :: rest.1, rest.2)
    else ([], balance)

/-- `AmortizationCalculator::calculateMortgage`. -/
def calculateMortgage (entry : MortgageEntry) : LoanCalculationResult :=
  let rate := monthlyRate entry.interestRate
  let termMonths := entry.termYears * 12
  let piPayment := calculateAmortizationPayment entry.balance rate termMonths
  let escrowPayment :=
    entry.propertyTaxAnnual / 12 + entry.homeInsuranceAnnual / 12 + entry.hoaMonthly
  let originalLTV := entry.balance / entry.homePrice
  let monthlyPMI :=
    if originalLTV > 80 / 100 ∧ entry.pmiRate > 0 then
      entry.balance * entry.pmiRate / 100 / 12
    else 0
  let run := mortgageLoop piPayment escrowPayment monthlyPMI rate entry.homePrice
    entry.balance 0 termMonths
  { loanId := entry.id, loanName := entry.name, loanType := entry.type,
    principal := entry.balance, interestRate := entry.interestRate,
    monthlyPayment := piPayment + escrowPayment + monthlyPMI,
    events := run.1, totalMonths := run.1.length,
    totalInterest := (run.1.map (·.interest)).sum,
    totalPaid := (run.1.map (·.totalPayment)).sum,
    totalPMI := (run.1.map (·.pmiPayment)).sum,
    totalEscrow := (run.1.map (·.escrowPayment)).sum,
    minimumPayment := 0, vehicleValue := 0,
    equityPercent := (entry.homePrice - run.2) / entry.homePrice * 100 }

/-- `StudentLoanEntry` of LoanModels.h. -/
structure StudentLoanEntry where
  id : String
  name : String
  type : String
  balance : ℚ
  interestRate : ℚ
  monthlyPayment : ℚ
  isFederal : Bool
  isSubsidized : Bool
  originationFeePercent : ℚ
  repaymentPlan : String
  loanServicer : String
deriving Repr, DecidableEq

/-- The nominal term `calculateStudentLoan` selects from the repayment
plan: standard 120, extended 300, graduated 120, income-driven 300. -/
def studentTermMonths (repaymentPlan : String) : ℕ :=
  if repaymentPlan = "standard" then 120
  else if repaymentPlan = "extended" then 300
  else if repaymentPlan = "graduated" then 120
  else 300

/-- The student loan loop: simple interest, interest-then-payment, with
the graduated ramping schedule and the negative amortization guard. -/
def studentLoanLoop (repaymentPlan : String)
    (payment graduatedPayment graduatedIncrease rate : ℚ) (balance : ℚ)
    (month fuel : ℕ) : List MonthlyEvent :=
  match fuel with
  | 0 => []
  | f + 1 =>
    if balance > 1 / 100 then
      let interest := balance * rate
      let currentPayment :=
        if repaymentPlan = "graduated" then
          min (graduatedPayment + graduatedIncrease * (((month + 1 - 1) / 24 : ℕ) : ℚ))
            (payment * (3 / 2))
        else payment
      let payApplied := min currentPayment (balance + interest)
      let rawPrincipal := payApplied - interest
      let principalPaid := if rawPrincipal < 0 then 0 else rawPrincipal
      let newBalance :=
        if rawPrincipal < 0 then balance + (interest - payApplied)
        else balance - rawPrincipal
      { month := month + 1, startBalance := balance, interest := interest,
        payment := payApplied, endBalance := max 0 newBalance,
        principalPaid := principalPaid, pmiPayment := 0, escrowPayment := 0,
        totalPayment := payApplied } ::
        studentLoanLoop repaymentPlan payment graduatedPayment graduatedIncrease
          rate newBalance (month + 1) f
    else []

/-- `AmortizationCalculator::calculateStudentLoan`. -/
def calculateStudentLoan (entry : StudentLoanEntry) : LoanCalculationResult :=
  let rate := monthlyRate entry.interestRate
  let termMonths := studentTermMonths entry.repaymentPlan
  let payment :=
    if entry.monthlyPayment ≤ 0 then
      calculateAmortizationPayment entry.balance rate termMonths
    else entry.monthlyPayment
  let graduatedPayment := payment * (75 / 100)
  let graduatedIncrease := payment * (50 / 100) / 5
  let events := studentLoanLoop entry.repaymentPlan payment graduatedPayment
    graduatedIncrease rate entry.balance 0 (termMonths + 60)
  { loanId := entry.id, loanName := entry.name, loanType := entry.type,
    principal := entry.balance, interestRate := entry.interestRate,
    monthlyPayment := payment, events := events, totalMonths := events.length,
    totalInterest := (events.map (·.interest)).sum,
    totalPaid := (events.map (·.totalPayment)).sum,
    totalPMI := 0, totalEscrow := 0, minimumPayment := 0,
    vehicleValue := 0, equityPercent := 0 }

/-- `LoanEntry` of LoanModels.h: the generically-typed portfolio entry.
The C++ struct keeps the raw JSON and re-parses it per type; here the
entry carries every field any specialized calculator may read. -/
structure LoanEntry where
  id : String
  name : String
  type : String
  balance : ℚ
  interestRate : ℚ
  monthlyPayment : ℚ
  apr : ℚ
  creditLimit : ℚ
  minimumPaymentPercent : ℚ
  minimumPaymentFloor : ℚ
  termMonths : ℕ
  originationFeePercent : ℚ
  vehiclePrice : ℚ
  downPayment : ℚ
  tradeInValue : ℚ
  tradeInPayoff : ℚ
  vehicleYear : ℕ
  isUsed : Bool
  termYears : ℕ
  homePrice : ℚ
  downPaymentPercent : ℚ
  propertyTaxAnnual : ℚ
  homeInsuranceAnnual : ℚ
  pmiRate : ℚ
  hoaMonthly : ℚ
  includeEscrow : Bool
  isFederal : Bool
  isSubsidized : Bool
  repaymentPlan : String
  loanServicer : String
deriving Repr, DecidableEq

/-- `CreditCardEntry::fromJson(entry.rawJson)`. -/
def LoanEntry.toCreditCard (e : LoanEntry) : CreditCardEntry :=
  { id := e.id, name := e.name, type := e.type, balance := e.balance,
    apr := e.apr, creditLimit := e.creditLimit,
    monthlyPayment := e.monthlyPayment,
    minimumPaymentPercent := e.minimumPaymentPercent,
    minimumPaymentFloor := e.minimumPaymentFloor }

/-- `PersonalLoanEntry::fromJson(entry.rawJson)`. -/
def LoanEntry.toPersonalLoan (e : LoanEntry) : PersonalLoanEntry :=
  { id := e.id, name := e.name, type := e.type, balance := e.balance,
    interestRate := e.interestRate, termMonths := e.termMonths,
    monthlyPayment := e.monthlyPayment,
    originationFeePercent := e.originationFeePercent }

/-- `AutoLoanEntry::fromJson(entry.rawJson)`. -/
def LoanEntry.toAutoLoan (e : LoanEntry) : AutoLoanEntry :=
  { id := e.id, name := e.name, type := e.type, balance := e.balance,
    interestRate := e.interestRate, termMonths := e.termMonths,
    vehiclePrice := e.vehiclePrice, downPayment := e.downPayment,
    tradeInValue := e.tradeInValue, tradeInPayoff := e.tradeInPayoff,
    vehicleYear := e.vehicleYear, isUsed := e.isUsed }

/-- `MortgageEntry::fromJson(entry.rawJson)`. -/
def LoanEntry.toMortgage (e : LoanEntry) : MortgageEntry :=
  { id := e.id, name := e.name, type := e.type, balance := e.balance,
    interestRate := e.interestRate, termYears := e.termYears,
    homePrice := e.homePrice, downPayment := e.downPayment,
    downPaymentPercent := e.downPaymentPercent,
    propertyTaxAnnual := e.propertyTaxAnnual,
    homeInsuranceAnnual := e.homeInsuranceAnnual, pmiRate := e.pmiRate,
    hoaMonthly := e.hoaMonthly, includeEscrow := e.includeEscrow }

/-- `StudentLoanEntry::fromJson(entry.rawJson)`. -/
def LoanEntry.toStudentLoan (e : LoanEntry) : StudentLoanEntry :=
  { id := e.id, name := e.name, type := e.type, balance := e.balance,
    interestRate := e.interestRate, monthlyPayment := e.monthlyPayment,
    isFederal := e.isFederal, isSubsidized := e.isSubsidized,
    originationFeePercent := e.originationFeePercent,
    repaymentPlan := e.repaymentPlan, loanServicer := e.loanServicer }

/-- `AmortizationCalculator::calculateLoan`: dispatch by the `type` tag,
with the generic simple-interest fallback for unrecognized types. -/
def calculateLoan (entry : LoanEntry) : LoanCalculationResult :=
  if entry.type = "credit-card" then calculateCreditCard entry.toCreditCard
  else if entry.type = "personal-loan" then calculatePersonalLoan entry.toPersonalLoan
  else if entry.type = "auto-loan" then calculateAutoLoan entry.toAutoLoan
  else if entry.type = "mortgage" then calculateMortgage entry.toMortgage
  else if entry.type = "student-loan" then calculateStudentLoan entry.toStudentLoan
  else
    let events := simpleInterestLoop entry.monthlyPayment
      (monthlyRate entry.interestRate) entry.balance 0 1200
    { loanId := entry.id, loanName := entry.name, loanType := entry.type,
      principal := entry.balance, interestRate := entry.interestRate,
      monthlyPayment := entry.monthlyPayment, events := events,
      totalMonths := events.length,
      totalInterest := (events.map (·.interest)).sum,
      totalPaid := (events.map (·.totalPayment)).sum,
      totalPMI := 0, totalEscrow := 0, minimumPayment := 0,
      vehicleValue := 0, equityPercent := 0 }

/-- `MultiLoanResponse` of LoanModels.h. -/
structure MultiLoanResponse where
  loans : List LoanCalculationResult
  totalPrincipal : ℚ
  totalInterest : ℚ
  totalMonths : ℕ
  totalMonthlyPayment : ℚ
  totalPaid : ℚ
deriving Repr, DecidableEq

/-- One step of the aggregation loop in `LoanController::calculateMultiple`. -/
def addLoanResult (acc : MultiLoanResponse) (entry : LoanEntry) : MultiLoanResponse :=
  let result := calculateLoan entry
  { loans := acc.loans ++ [result],
    totalPrincipal := acc.totalPrincipal + result.principal,
    totalInterest := acc.totalInterest + result.totalInterest,
    totalMonths := if result.totalMonths > acc.totalMonths then result.totalMonths
      else acc.totalMonths,
    totalMonthlyPayment := acc.totalMonthlyPayment + result.monthlyPayment,
    totalPaid := acc.totalPaid + result.totalPaid }

/-- `LoanController::calculateMultiple` without the HTTP layer: reject an
empty portfolio, otherwise run the dispatcher over every entry and
aggregate (sums, and the maximum for `totalMonths`). -/
def calculateMultiple (loans : List LoanEntry) : Except String MultiLoanResponse :=
  if loans.isEmpty then Except.error "No loans provided"
  else Except.ok (loans.foldl addLoanResult
    { loans := [], totalPrincipal := 0, totalInterest := 0, totalMonths := 0,
      totalMonthlyPayment := 0, totalPaid := 0 })

/-- `PayoffStrategyType` of payoffStrategy.ts. -/
inductive PayoffStrategyType where
  | avalanche
  | snowball
  | standard
deriving Repr, DecidableEq

/-- `LoanSnapshot` of payoffStrategy.ts: the strategy simulator's per-loan
input view. -/
structure LoanSnapshot where
  id : String
  name : String
  balance : ℚ
  apr : ℚ
  minimumPayment : ℚ
  loanType : String
deriving Repr, DecidableEq

/-- `PayoffOrderItem` of payoffStrategy.ts. -/
structure PayoffOrderItem where
  loanId : String
  loanName : String
  payoffMonth : ℕ
  totalInterestPaid : ℚ
  totalPaid : ℚ
deriving Repr, DecidableEq

/-- One per-loan sub-event of a `StrategyMonthEvent`. -/
structure StrategyLoanEvent where
  loanId : String
  loanName : String
  startBalance : ℚ
  payment : ℚ
  interest : ℚ
  endBalance : ℚ
  isPaidOff : Bool
deriving Repr, DecidableEq

/-- `StrategyMonthEvent` of payoffStrategy.ts: one month across the
portfolio. -/
structure StrategyMonthEvent where
  month : ℕ
  loans : List StrategyLoanEvent
  totalPayment : ℚ
  totalBalance : ℚ
deriving Repr, DecidableEq

/-- `StrategyResult` of payoffStrategy.ts. -/
structure StrategyResult where
  strategy : PayoffStrategyType
  totalMonths : ℕ
  totalInterest : ℚ
  totalPaid : ℚ
  interestSaved : ℚ
  monthsSaved : ℚ
  payoffOrder : List PayoffOrderItem
  monthlyEvents : List StrategyMonthEvent
deriving Repr, DecidableEq

/-- A JavaScript `Map<string, number>` as an association list in key
insertion order.  `alSet` embeds `Map.set`: an existing key is updated in
place, a new key is appended. -/
def alSet (entries : List (String × ℚ)) (key : String) (value : ℚ) :
    List (String × ℚ) :=
  match entries with
  | [] => [(key, value)]
  | (k, v) :: rest =>
    if k = key then (key, value) :: rest else (k, v) :: alSet rest key value

/-- `map.get(key) || 0` of the TypeScript code. -/
def alGet (entries : List (String × ℚ)) (key : String) : ℚ :=
  match entries with
  | [] => 0
  | (k, v) :: rest => if k = key then v else alGet rest key

/-- `Array.from(map.values())` of the TypeScript code: the values in key
insertion order. -/
def alValues (entries : List (String × ℚ)) : List ℚ :=
  entries.map (fun p => p.2)

/-- The `comparator(a, b) ≤ 0` relation of the avalanche sort: highest APR
first, smallest balance as tiebreaker. -/
def avalancheBefore (a b : LoanSnapshot) : Bool :=
  if a.apr = b.apr then
    if a.balance ≤ b.balance then true else false
  else
    if b.apr < a.apr then true else false

/-- The `comparator(a, b) ≤ 0` relation of the snowball sort: smallest
balance first, highest APR as tiebreaker. -/
def snowballBefore (a b : LoanSnapshot) : Bool :=
  if a.balance = b.balance then
    if b.apr ≤ a.apr then true else false
  else
    if a.balance < b.balance then true else false

/-- Insert into a sorted list, keeping earlier-listed elements first on
ties: together with `stableSortBy` this is the unique stable sort that
`Array.prototype.sort` with a total comparator produces. -/
def stableInsert (before : LoanSnapshot → LoanSnapshot → Bool) (a : LoanSnapshot) :
    List LoanSnapshot → List LoanSnapshot
  | [] => [a]
  | b :: rest =>
    if before a b then a :: b :: rest else b :: stableInsert before a rest

/-- Stable insertion sort by a `comparator ≤ 0` relation. -/
def stableSortBy (before : LoanSnapshot → LoanSnapshot → Bool) :
    List LoanSnapshot → List LoanSnapshot
  | [] => []
  | a :: rest => stableInsert before a (stableSortBy before rest)

/-- `getLoanPriority` of payoffStrategy.ts. -/
def getLoanPriority (loans : List LoanSnapshot) (strategy : PayoffStrategyType) :
    List LoanSnapshot :=
  match strategy with
  | PayoffStrategyType.avalanche => stableSortBy avalancheBefore loans
  | PayoffStrategyType.snowball => stableSortBy snowballBefore loans
  | PayoffStrategyType.standard => loans

/-- The `for (const loan of priorityLoans)` walk of `simulateStrategy`
that pours the remaining extra budget into loans in priority order. -/
def applyExtraPayments (bal : List (String × ℚ)) (priorityLoans : List LoanSnapshot)
    (payments : List (String × ℚ)) (remainingExtra : ℚ) : List (String × ℚ) :=
  match priorityLoans with
  | [] => payments
  | loan :: rest =>
    if remainingExtra ≤ 0 then payments
    else
      let balance := alGet bal loan.id
      let currentPayment := alGet payments loan.id
      let maxExtra := balance - currentPayment
      if maxExtra > 0 then
        let extraToApply := min remainingExtra maxExtra
        applyExtraPayments bal rest
          (alSet payments loan.id (currentPayment + extraToApply))
          (remainingExtra - extraToApply)
      else applyExtraPayments bal rest payments remainingExtra

/-- The mutable state of one `simulateStrategy` run. -/
structure SimState where
  bal : List (String × ℚ)
  intPaid : List (String × ℚ)
  paid : List (String × ℚ)
  freedMinPayments : ℚ
  payoffOrder : List PayoffOrderItem
  monthlyEvents : List StrategyMonthEvent
  month : ℕ
deriving Repr, DecidableEq

/-- The accumulator of the inner `for (const loan of loans)` pass of one
simulated month. -/
structure MonthPassAcc where
  st : SimState
  subEvents : List StrategyLoanEvent
  totalPayment : ℚ
  totalBalance : ℚ
deriving Repr, DecidableEq

/-- One loan's share of one simulated month of `simulateStrategy`:
zero-activity sub-event for already-paid-off loans, otherwise
interest-then-payment, tracking updates and first-payoff recording. -/
def strategyMonthStep (payments : List (String × ℚ)) (month : ℕ)
    (acc : MonthPassAcc) (loan : LoanSnapshot) : MonthPassAcc :=
  let startBalance := alGet acc.st.bal loan.id
  if startBalance ≤ 1 / 100 then
    { acc with subEvents := acc.subEvents ++
        [{ loanId := loan.id, loanName := loan.name, startBalance := 0,
           payment := 0, interest := 0, endBalance := 0, isPaidOff := true }] }
  else
    let payment := alGet payments loan.id
    let rate := loan.apr / 100 / 12
    let interest := startBalance * rate
    let endBalance := max 0 (startBalance - payment + interest)
    let isPaidOff := if endBalance ≤ 1 / 100 then true else false
    let newIntPaid := alGet acc.st.intPaid loan.id + interest
    let newPaid := alGet acc.st.paid loan.id + payment
    let st1 :=
      { acc.st with
        bal := alSet acc.st.bal loan.id endBalance,
        intPaid := alSet acc.st.intPaid loan.id newIntPaid,
        paid := alSet acc.st.paid loan.id newPaid }
    let st2 :=
      if isPaidOff && st1.payoffOrder.all
          (fun p => if p.loanId = loan.id then false else true) then
        { st1 with
          payoffOrder := st1.payoffOrder ++
            [{ loanId := loan.id, loanName := loan.name, payoffMonth := month,
               totalInterestPaid := newIntPaid, totalPaid := newPaid }],
          freedMinPayments := st1.freedMinPayments + loan.minimumPayment }
      else st1
    { st := st2,
      subEvents := acc.subEvents ++
        [{ loanId := loan.id, loanName := loan.name, startBalance := startBalance,
           payment := payment, interest := interest, endBalance := endBalance,
           isPaidOff := isPaidOff }],
      totalPayment := acc.totalPayment + payment,
      totalBalance := acc.totalBalance + endBalance }

/-- One iteration of the `while (month < maxMonths)` loop of
`simulateStrategy`: `none` when it breaks (all balances within the 0.01
epsilon of zero, or no active loan), otherwise the state after one more
simulated month. -/
def strategyMonthPass (loans : List LoanSnapshot) (extraPayment : ℚ)
    (strategy : PayoffStrategyType) (st : SimState) : Option SimState :=
  let remainingBalances := alValues st.bal
  if remainingBalances.all (fun b => if b ≤ 1 / 100 then true else false) then none
  else
    let month := st.month + 1
    let activeLoans := loans.filter
      (fun loan => if alGet st.bal loan.id > 1 / 100 then true else false)
    if activeLoans.isEmpty then none
    else
      let totalExtra := extraPayment + st.freedMinPayments
      let payments : List (String × ℚ) :=
        match strategy with
        | PayoffStrategyType.standard =>
          let totalMinimums := (activeLoans.map (·.minimumPayment)).sum
          let totalBudget := totalMinimums + totalExtra
          let paymentPerLoan := totalBudget / (activeLoans.length : ℚ)
          activeLoans.foldl
            (fun acc loan => alSet acc loan.id (min paymentPerLoan (alGet st.bal loan.id)))
            []
        | _ =>
          let priorityLoans := getLoanPriority activeLoans strategy
          let minimums := activeLoans.foldl
            (fun acc loan => alSet acc loan.id (min loan.minimumPayment (alGet st.bal loan.id)))
            []
          applyExtraPayments st.bal priorityLoans minimums totalExtra
      let pass := loans.foldl (strategyMonthStep payments month)
        { st := { st with month := month }, subEvents := [],
          totalPayment := 0, totalBalance := 0 }
      some { pass.st with monthlyEvents := pass.st.monthlyEvents ++
        [{ month := month, loans := pass.subEvents,
           totalPayment := pass.totalPayment, totalBalance := pass.totalBalance }] }

/-- The `while (month < maxMonths)` loop of `simulateStrategy`.  `fuel`
is the number of months the 1200-month cap still allows. -/
def strategyLoop (loans : List LoanSnapshot) (extraPayment : ℚ)
    (strategy : PayoffStrategyType) (st : SimState) (fuel : ℕ) : SimState :=
  match fuel with
  | 0 => st
  | f + 1 =>
    match strategyMonthPass loans extraPayment strategy st with
    | none => st
    | some st' => strategyLoop loans extraPayment strategy st' f

/-- `simulateStrategy` of payoffStrategy.ts. -/
def simulateStrategy (loans : List LoanSnapshot) (extraPayment : ℚ)
    (strategy : PayoffStrategyType) : StrategyResult :=
  let start : SimState :=
    { bal := loans.foldl (fun acc loan => alSet acc loan.id loan.balance) [],
      intPaid := loans.foldl (fun acc loan => alSet acc loan.id 0) [],
      paid := loans.foldl (fun acc loan => alSet acc loan.id 0) [],
      freedMinPayments := 0, payoffOrder := [], monthlyEvents := [], month := 0 }
  let final := strategyLoop loans extraPayment strategy start 1200
  { strategy := strategy, totalMonths := final.month,
    totalInterest := (alValues final.intPaid).sum,
    totalPaid := (alValues final.paid).sum,
    interestSaved := 0, monthsSaved := 0,
    payoffOrder := final.payoffOrder, monthlyEvents := final.monthlyEvents }

/-! ## Helper lemmas about the legacy calculator -/

/-- One unfolding of `legacyLoop`, stated for rewriting at a numeric fuel
literal. -/
theorem legacyLoop_unfold (mp rate b : ℚ) (m fuel : ℕ) (h : fuel ≠ 0) :
    legacyLoop mp rate b m fuel =
      if b > 1 / 100 then
        { month := m + 1, startBalance := b, interest := (b - min mp b) * rate,
          payment := min mp b,
          endBalance := max 0 (b - min mp b + (b - min mp b) * rate),
          principalPaid := min mp b, pmiPayment := 0, escrowPayment := 0,
          totalPayment := min mp b } ::
          legacyLoop mp rate (b - min mp b + (b - min mp b) * rate) (m + 1) (fuel - 1)
      else [] := by
  cases fuel with
  | zero => exact absurd rfl h
  | succ f => rfl

/-- When validation passes, the legacy calculator's events are the
payment-first loop run from the requested principal. -/
theorem eventsOf_calculate_ok (r : LoanRequest) (h : validateInput r = none) :
    eventsOf (calculate r) =
      legacyLoop r.monthlyPayment (monthlyRate r.apr) r.principal 0 1200 := by
  unfold calculate
  rw [h]
  rfl

/-- Every event the legacy loop emits has payment-then-interest shape:
the payment is `min(configuredPayment, startBalance)`, interest accrues on
the reduced balance, and the end balance is their nonnegative sum. -/
theorem legacyLoop_event_shape (mp rate : ℚ) :
    ∀ (fuel : ℕ) (balance : ℚ) (month : ℕ),
      ∀ ev ∈ legacyLoop mp rate balance month fuel,
        ev.payment = min mp ev.startBalance ∧
        ev.interest = (ev.startBalance - ev.payment) * rate ∧
        ev.endBalance = max 0 (ev.startBalance - ev.payment + ev.interest) := by
  intro fuel
  induction fuel with
  | zero => intro b m ev hev; simp [legacyLoop] at hev
  | succ f ih =>
    intro b m ev hev
    rw [legacyLoop] at hev
    by_cases hb : b > 1 / 100
    · rw [if_pos hb] at hev
      rcases List.mem_cons.mp hev with h | h
      · subst h; exact ⟨rfl, rfl, rfl⟩
      · exact ih _ _ ev h
    · rw [if_neg hb] at hev
      simp at hev

/-- C1: For the legacy single-loan calculator with principal=10000,
apr=18.99, monthlyPayment=250, the first MonthlyEvent has
startBalance=10000, payment=250, interest = 9750 × (18.99/100/12) ≈ 154.29
and endBalance ≈ 9904.29: the payment is subtracted first and interest
then accrues on the reduced balance, every month of the schedule. -/
theorem legacy_payment_first_scenario :
    (∃ ev,
      (eventsOf (calculate
        { principal := 10000, apr := 1899 / 100, monthlyPayment := 250 })).head? =
          some ev ∧
      ev.startBalance = 10000 ∧ ev.payment = 250 ∧
      ev.interest = 9750 * monthlyRate (1899 / 100) ∧
      |ev.interest - 15429 / 100| < 1 / 100 ∧
      |ev.endBalance - 990429 / 100| < 1 / 100) ∧
    ∀ ev ∈ eventsOf (calculate
        { principal := 10000, apr := 1899 / 100, monthlyPayment := 250 }),
      ev.payment = min 250 ev.startBalance ∧
      ev.interest = (ev.startBalance - ev.payment) * monthlyRate (1899 / 100) ∧
      ev.endBalance = max 0 (ev.startBalance - ev.payment + ev.interest) := by
  have hv : validateInput
      { principal := 10000, apr := 1899 / 100, monthlyPayment := 250 } = none := by
    norm_num [validateInput, monthlyRate]
  constructor
  · refine ⟨{
        month := 1, startBalance := 10000, interest := 24687 / 160,
        payment := 250, endBalance := 1584687 / 160, principalPaid := 250,
        pmiPayment := 0, escrowPayment := 0, totalPayment := 250 },
      ?_, rfl, rfl, by norm_num [monthlyRate],
      by rw [abs_sub_lt_iff]; norm_num, by rw [abs_sub_lt_iff]; norm_num⟩
    rw [eventsOf_calculate_ok _ hv]
    rw [legacyLoop_unfold]
    · norm_num [min_def, max_def, monthlyRate]
    · norm_num
  · intro ev hev
    rw [eventsOf_calculate_ok _ hv] at hev
    exact legacyLoop_event_shape 250 (monthlyRate (1899 / 100)) 1200 10000 0 ev hev

/-! ## Helper lemmas about the strategy simulator -/

/-- One unfolding of `strategyLoop`, stated for rewriting at a numeric
fuel literal. -/
theorem strategyLoop_unfold (loans : List LoanSnapshot) (extraPayment : ℚ)
    (strategy : PayoffStrategyType) (st : SimState) (fuel : ℕ) (h : fuel ≠ 0) :
    strategyLoop loans extraPayment strategy st fuel =
      match strategyMonthPass loans extraPayment strategy st with
      | none => st
      | some st' => strategyLoop loans extraPayment strategy st' (fuel - 1) := by
  cases fuel with
  | zero => exact absurd rfl h
  | succ f => rfl

/-- C10: on the empty portfolio the strategy simulator does not fail for
any extra payment and strategy: it returns zero months, zero interest,
zero paid, no payoff order entries and no monthly events. -/
theorem strategy_empty_portfolio (extraPayment : ℚ) (strategy : PayoffStrategyType) :
    simulateStrategy [] extraPayment strategy =
      { strategy := strategy, totalMonths := 0, totalInterest := 0, totalPaid := 0,
        interestSaved := 0, monthsSaved := 0, payoffOrder := [],
        monthlyEvents := [] } := by
  have h1 : strategyMonthPass [] extraPayment strategy
      { bal := [], intPaid := [], paid := [], freedMinPayments := 0,
        payoffOrder := [], monthlyEvents := [], month := 0 } = none := rfl
  simp only [simulateStrategy, List.foldl_nil]
  rw [strategyLoop_unfold _ _ _ _ _ (by norm_num), h1]
  rfl

/-- C6: the legacy calculator fails exactly on the four validation
conditions, and on failure produces no schedule (the error outcome
carries no events). -/
theorem legacy_validation_characterization (r : LoanRequest) :
    ((∃ msg, calculate r = Except.error msg) ↔
      (r.principal ≤ 0 ∨ r.apr < 0 ∨ 100 < r.apr ∨ r.monthlyPayment ≤ 0 ∨
        r.monthlyPayment ≤ r.principal * monthlyRate r.apr)) ∧
    ∀ msg, calculate r = Except.error msg → eventsOf (calculate r) = [] := by
  constructor
  · have herr : (∃ msg, calculate r = Except.error msg) ↔ validateInput r ≠ none := by
      cases hv : validateInput r <;> simp [calculate, hv]
    rw [herr]
    unfold validateInput
    split_ifs with h1 h2 h3 h4 <;> simp <;> push_neg at * <;> tauto
  · intro msg hmsg
    rw [hmsg]
    rfl

end LoanSim
